import Mathlib

/-!
Verification development for `voice_assistant.py`: a session manager that
connects to a hosted conversational-AI agent, appends callback events to an
in-memory history, and persists a JSON transcript on exit.

The Python source is shallowly embedded:
* `datetime` instants are a record of calendar fields; `strftime`/`isoformat`
  are reproduced as string formatters.
* The process environment and the tool-parameter dict are association lists.
* The filesystem is a record of existing directory names and written files;
  `open(path, "w")` fails with `FileNotFoundError` when the parent directory
  is absent, `Path(d).mkdir(exist_ok=True)` adds the directory.
* Mutation of `self` becomes explicit state passing on `VAState`; each call
  to `datetime.now()` is modelled by an explicit instant parameter.
* Logging returns the emitted line (or `none`) instead of writing to a sink.
* `float(...)` applied to `VOLUME` is modelled by a validity check over
  CPython's float-literal grammar (`pyFloatValid`): an invalid literal raises
  `ValueError` exactly where the program does; the accepted raw string is
  then carried unevaluated, since no observable behaviour of this program
  depends on its numeric value and float arithmetic is out of scope.
-/

/-- A `datetime.datetime` value: calendar fields only (no timezone). -/
structure DateTime where
  year : Nat
  month : Nat
  day : Nat
  hour : Nat
  minute : Nat
  second : Nat
  microsecond : Nat
deriving DecidableEq, Repr

/-- Decimal digit characters, most significant first; structural recursion
on a fuel argument so that evaluation is definitional.  The fuel `n + 1`
used below always exceeds the digit count. -/
def natCharsAux : Nat → Nat → List Char
  | 0, _ => []
  | fuel + 1, n =>
      if n < 10 then [Nat.digitChar n]
      else natCharsAux fuel (n / 10) ++ [Nat.digitChar (n % 10)]

/-- The decimal digit characters of `n`, most significant first. -/
def natChars (n : Nat) : List Char := natCharsAux (n + 1) n

/-- Left-pad a digit list with `'0'` to width `w`. -/
def padChars (w : Nat) (l : List Char) : List Char :=
  List.replicate (w - l.length) '0' ++ l

/-- The decimal form of `n`, zero-padded to width `w` (`"%0__d"`). -/
def padNum (w n : Nat) : String :=
  String.mk (padChars w (natChars n))

/-- `d.strftime("%Y%m%d_%H%M%S")`: truncates to seconds. -/
def DateTime.strftimeYmdHMS (d : DateTime) : String :=
  String.mk (padChars 4 (natChars d.year) ++ padChars 2 (natChars d.month) ++
    padChars 2 (natChars d.day) ++ ['_'] ++ padChars 2 (natChars d.hour) ++
    padChars 2 (natChars d.minute) ++ padChars 2 (natChars d.second))

/-- `d.isoformat()`: `YYYY-MM-DDTHH:MM:SS[.ffffff]`, microseconds omitted
when zero, as CPython does. -/
def DateTime.isoformat (d : DateTime) : String :=
  String.mk (padChars 4 (natChars d.year) ++ ['-'] ++
    padChars 2 (natChars d.month) ++ ['-'] ++ padChars 2 (natChars d.day) ++
    ['T'] ++ padChars 2 (natChars d.hour) ++ [':'] ++
    padChars 2 (natChars d.minute) ++ [':'] ++
    padChars 2 (natChars d.second) ++
    (if d.microsecond = 0 then [] else
      '.' :: padChars 6 (natChars d.microsecond)))

/-- Python exceptions that the embedded code can raise. -/
inductive PyError where
  | valueError (msg : String)
  | fileNotFoundError (path : String)
deriving DecidableEq, Repr

/-- String-keyed association list: used for `os.environ` (after `load_dotenv`
has merged the `.env` file in) and for the tool-call parameter dict. -/
abbrev StrDict := List (String × String)

/-- `d.get(k)` / `os.getenv(k)`: `None` when the key is absent. -/
def StrDict.get? (d : StrDict) (k : String) : Option String :=
  (d.find? (fun p => p.1 == k)).map (·.2)

/-- `os.getenv(k, default)`: the default applies only when the key is unset
(a key set to the empty string yields the empty string). -/
def StrDict.getD (d : StrDict) (k dflt : String) : String :=
  (d.get? k).getD dflt

/-- Python truthiness of an optional string: `None` and `""` are falsy. -/
def pyTruthy : Option String → Bool
  | none => false
  | some s => s != ""

/-- The numeric value of a decimal digit character. -/
def digitVal (c : Char) : Nat := c.toNat - 48

/-- A non-empty all-digit character list as a number. -/
def parseNatChars (l : List Char) : Option Nat :=
  if l ≠ [] ∧ l.all Char.isDigit then
    some (l.foldl (fun n c => n * 10 + digitVal c) 0)
  else none

/-- `int(s)`: optional surrounding whitespace, optional sign, decimal
digits; raises `ValueError` (here: `none`) on anything else. -/
def pyInt? (s : String) : Option Int :=
  let l := s.data.dropWhile (· = ' ')
  let l := (l.reverse.dropWhile (· = ' ')).reverse
  match l with
  | '-' :: ds => (parseNatChars ds).map (fun n => -(n : Int))
  | '+' :: ds => (parseNatChars ds).map (fun n => (n : Int))
  | ds => (parseNatChars ds).map (fun n => (n : Int))

/-- Consume the tail of a CPython `digitpart` (digits, with a single
underscore allowed only between digits), returning the remainder. -/
def consumeDigits : List Char → List Char
  | [] => []
  | c :: cs =>
      if c.isDigit then consumeDigits cs
      else if c = '_' then
        match cs with
        | d :: cs2 => if d.isDigit then consumeDigits cs2 else c :: cs
        | [] => c :: cs
      else c :: cs

/-- Consume a full `digitpart` (at least one leading digit); `none` when
none is present. -/
def takeDigitPart : List Char → Option (List Char)
  | [] => none
  | c :: cs => if c.isDigit then some (consumeDigits cs) else none

/-- Accept an optional exponent (`e`/`E`, optional sign, digitpart) that
must use up the whole remainder. -/
def expPartOk : List Char → Bool
  | [] => true
  | c :: cs =>
      if c = 'e' ∨ c = 'E' then
        let cs2 := match cs with
          | s :: r => if s = '+' ∨ s = '-' then r else s :: r
          | [] => []
        match takeDigitPart cs2 with
        | some [] => true
        | _ => false
      else false

/-- Accept a CPython `floatnumber`: `digitpart [. [digitpart]]`,
`. digitpart`, each with an optional exponent. -/
def floatNumber (l : List Char) : Bool :=
  match takeDigitPart l with
  | some rest =>
      match rest with
      | '.' :: rest2 =>
          (match takeDigitPart rest2 with
           | some rest3 => expPartOk rest3
           | none => expPartOk rest2)
      | _ => expPartOk rest
  | none =>
      match l with
      | '.' :: rest2 =>
          (match takeDigitPart rest2 with
           | some rest3 => expPartOk rest3
           | none => false)
      | _ => false

/-- Whether `float(s)` succeeds: surrounding whitespace, an optional sign,
then case-insensitive `inf`/`infinity`/`nan` or a float literal. -/
def pyFloatValid (s : String) : Bool :=
  let l := s.data.dropWhile (· = ' ')
  let l := (l.reverse.dropWhile (· = ' ')).reverse
  let l := match l with
    | c :: r => if c = '+' ∨ c = '-' then r else c :: r
    | [] => []
  let low := l.map Char.toLower
  (low == "inf".data || low == "infinity".data || low == "nan".data) ||
    floatNumber l

/-- One element of `self.history`: the dict appended by the agent/user
callbacks.  The timestamp is stored already ISO-formatted, as in the JSON. -/
structure Entry where
  role : String
  text : String
  timestamp : String
deriving DecidableEq, Repr

/-- The JSON object `json.dump`ed into a transcript file. -/
structure FileContent where
  start_time : Option String
  end_time : String
  history : List Entry
deriving DecidableEq, Repr

/-- Filesystem model: which directories exist and which files have been
written (path ↦ transcript content).  Only transcript files are written. -/
structure FS where
  dirs : List String
  files : List (String × FileContent)
deriving DecidableEq, Repr

/-- Split a character list at every `'/'` (the components of a POSIX path).
Always returns at least one (possibly empty) component. -/
def splitOnSlash : List Char → List (List Char)
  | [] => [[]]
  | c :: cs =>
      match splitOnSlash cs with
      | [] => [[]]
      | h :: t => if c = '/' then [] :: h :: t else (c :: h) :: t

/-- Rejoin path components with `'/'`. -/
def joinSlash : List (List Char) → List Char
  | [] => []
  | [l] => l
  | l :: ls => l ++ '/' :: joinSlash ls

/-- The directory component of a path, `none` for a bare filename. -/
def parentDir (path : String) : Option String :=
  let parts := splitOnSlash path.data
  if parts.length ≤ 1 then none
  else some (String.mk (joinSlash parts.dropLast))

/-- Record a written file, replacing any previous content at that path. -/
def FS.writeFile (fs : FS) (p : String) (c : FileContent) : FS :=
  { fs with files := fs.files.filter (fun q => q.1 != p) ++ [(p, c)] }

/-- Content of the file at `p`, if one has been written. -/
def FS.readFile? (fs : FS) (p : String) : Option FileContent :=
  (fs.files.find? (fun q => q.1 == p)).map (·.2)

/-- `open(p, "w")` followed by the dump: fails with `FileNotFoundError` when
the parent directory does not exist. -/
def FS.openWrite (fs : FS) (p : String) (c : FileContent) : Except PyError FS :=
  match parentDir p with
  | none => .ok (fs.writeFile p c)
  | some d =>
      if fs.dirs.contains d then .ok (fs.writeFile p c)
      else .error (.fileNotFoundError p)

/-- `Path(d).mkdir(exist_ok=True)`. -/
def FS.mkdir (fs : FS) (d : String) : FS :=
  if fs.dirs.contains d then fs else { fs with dirs := fs.dirs ++ [d] }

/-- The keyword arguments of the `Conversation(...)` constructor call in
`VoiceAssistant.start`, exactly as the source passes them.  The four
callback arguments are the manager's bound methods, constant for every
construction, so they carry no data here; `client` is determined by the API
key it was built from; `client_tools` by the registered tool names. -/
structure ConvArgs where
  client_api_key : Option String
  agent_id : Option String
  requires_auth : Bool
  volume : String
  client_tools : List String
deriving DecidableEq, Repr

/-- The mutable attributes of a `VoiceAssistant` instance. -/
structure VAState where
  agent_id : Option String
  api_key : Option String
  volume : String
  timeout : Int
  conversation : Option ConvArgs
  history : List Entry
  start_time : Option DateTime
deriving DecidableEq, Repr

/-- Externally visible constructions performed by `__init__`, in order. -/
inductive InitEffect where
  | loadDotenv
  | constructClient (api_key : Option String)
deriving DecidableEq, Repr

namespace VoiceAssistant

/-- `VoiceAssistant.__init__`: read configuration from the environment;
raise `ValueError` when `AGENT_ID` is unset or empty (Python truthiness),
when `float(os.getenv("VOLUME", "1.0"))` rejects its argument, or when
`int(os.getenv("TIMEOUT", "300"))` does — in that source order; otherwise
construct the `ElevenLabs` client and the initial state.  The effect list
records what was constructed before returning or raising; the validated
volume string is stored as-is, its numeric value being unobservable. -/
def init (env : StrDict) : List InitEffect × Except PyError VAState :=
  let agent_id := env.get? "AGENT_ID"
  let api_key := env.get? "ELEVENLABS_API_KEY"
  if pyTruthy agent_id = false then
    ([.loadDotenv], .error (.valueError "AGENT_ID environment variable is required"))
  else
    let volume := env.getD "VOLUME" "1.0"
    if pyFloatValid volume = false then
      ([.loadDotenv], .error (.valueError "could not convert string to float"))
    else
      match pyInt? (env.getD "TIMEOUT" "300") with
      | none =>
          ([.loadDotenv], .error (.valueError "invalid literal for int() with base 10"))
      | some t =>
          ([.loadDotenv, .constructClient api_key],
           .ok { agent_id := agent_id, api_key := api_key, volume := volume,
                 timeout := t, conversation := none, history := [],
                 start_time := none })

/-- `save_conversation`: early return when the history is empty; on the
default path create `logs/` and build a timestamped filename from the
current instant; then dump `{start_time, end_time, history}`.  The two
`datetime.now()` calls inside the method are the parameters `nowName`
(filename timestamp) and `nowEnd` (`end_time` field). -/
def save_conversation (st : VAState) (filename? : Option String)
    (nowName nowEnd : DateTime) (fs : FS) : Except PyError FS :=
  if st.history = [] then .ok fs
  else
    let (fs1, filename) :=
      match filename? with
      | none =>
          (fs.mkdir "logs",
           "logs/conversation_" ++ nowName.strftimeYmdHMS ++ ".json")
      | some f => (fs, f)
    fs1.openWrite filename
      { start_time := st.start_time.map DateTime.isoformat,
        end_time := nowEnd.isoformat,
        history := st.history }

/-- `agent_response_callback`: append an agent entry, return the log line. -/
def agent_response_callback (st : VAState) (now : DateTime)
    (response : String) : VAState × String :=
  ({ st with history :=
      st.history ++ [⟨"agent", response, now.isoformat⟩] },
   "Agent: " ++ response)

/-- `user_transcript_callback`: append a user entry, return the log line. -/
def user_transcript_callback (st : VAState) (now : DateTime)
    (transcript : String) : VAState × String :=
  ({ st with history :=
      st.history ++ [⟨"user", transcript, now.isoformat⟩] },
   "User: " ++ transcript)

/-- `correction_callback`: emit a log line only; the state is returned as
received. -/
def correction_callback (st : VAState) (original corrected : String) :
    VAState × String :=
  (st, "Correction: '" ++ original ++ "' → '" ++ corrected ++ "'")

/-- `latency_callback`: emit a debug log line only. -/
def latency_callback (st : VAState) (latency : Int) : VAState × String :=
  (st, "Latency: " ++ toString latency ++ "ms")

/-- `handle_interrupt`: end the session only when one exists.  Returns the
(unchanged) state and whether `end_session` was invoked. -/
def handle_interrupt (st : VAState) : VAState × Bool :=
  match st.conversation with
  | some _ => (st, true)
  | none => (st, false)

/-- The `log_message` client tool of `setup_client_tools`: fetch the
`message` parameter and log it only when truthy (present and non-empty).
Returns the emitted log line, `none` when nothing is logged; the tool itself
returns no value to its caller. -/
def log_message (parameters : StrDict) : Option String :=
  match parameters.get? "message" with
  | some message =>
      if message == "" then none
      else some ("AI Tool Call - Log Message: " ++ message)
  | none => none

/-- `setup_client_tools` registers exactly one tool, `logMessage`. -/
def setup_client_tools : List String := ["logMessage"]

/-- The `Conversation(...)` keyword arguments built in `start` from the
state: note no timeout is among them. -/
def mkConvArgs (st : VAState) : ConvArgs :=
  { client_api_key := st.api_key,
    agent_id := st.agent_id,
    requires_auth := pyTruthy st.api_key,
    volume := st.volume,
    client_tools := setup_client_tools }

end VoiceAssistant

/-- One callback invocation delivered by the SDK during a session, with the
instant at which it fires (its `datetime.now()`). -/
inductive Event where
  | agentResponse (text : String) (now : DateTime)
  | userTranscript (text : String) (now : DateTime)
  | responseCorrection (original corrected : String)
  | latencyMeasurement (ms : Int)
deriving DecidableEq, Repr

/-- Dispatch one callback invocation to its handler. -/
def stepEvent (st : VAState) (e : Event) : VAState × String :=
  match e with
  | .agentResponse t now => VoiceAssistant.agent_response_callback st now t
  | .userTranscript t now => VoiceAssistant.user_transcript_callback st now t
  | .responseCorrection o c => VoiceAssistant.correction_callback st o c
  | .latencyMeasurement ms => VoiceAssistant.latency_callback st ms

/-- Deliver a sequence of callback invocations in order. -/
def runEvents (st : VAState) (es : List Event) : VAState :=
  es.foldl (fun s e => (stepEvent s e).1) st

/-- The history entry an invocation appends, if any (corrections and latency
samples append nothing). -/
def entryOf? : Event → Option Entry
  | .agentResponse t now => some ⟨"agent", t, now.isoformat⟩
  | .userTranscript t now => some ⟨"user", t, now.isoformat⟩
  | .responseCorrection _ _ => none
  | .latencyMeasurement _ => none

/-- The entries a sequence of invocations appends, in order. -/
def entriesOf (es : List Event) : List Entry :=
  es.filterMap entryOf?

/-- An agent-response or user-transcript invocation (the two entry-appending
callbacks), as quantified over by the transcript-fidelity property. -/
inductive ChatMsg where
  | agent (text : String) (now : DateTime)
  | user (text : String) (now : DateTime)
deriving DecidableEq, Repr

/-- The invocation a chat message denotes. -/
def ChatMsg.toEvent : ChatMsg → Event
  | .agent t now => .agentResponse t now
  | .user t now => .userTranscript t now

/-- The entry the specification promises for a chat message: role `agent` or
`user` with the invocation's text. -/
def ChatMsg.toEntry : ChatMsg → Entry
  | .agent t now => ⟨"agent", t, now.isoformat⟩
  | .user t now => ⟨"user", t, now.isoformat⟩

/-- How the external collaborator's streaming run ends, as observed by
`start`: either `wait_for_session_end` returns normally, or an exception is
raised during streaming; in both cases after having delivered the listed
callback invocations. -/
inductive RunOutcome where
  | ok (events : List Event) (conversationId : String)
  | streamError (events : List Event)
deriving DecidableEq, Repr

/-- How the `start` method terminates control flow. -/
inductive StartOutcome where
  | returned (fs : FS)
  | exited (code : Nat) (fs : FS)
  | raised (e : PyError) (fs : FS)
deriving DecidableEq, Repr

/-- Everything observable about one execution of `start`. -/
structure StartResult where
  finalState : VAState
  convArgs : ConvArgs
  endSessionCalled : Bool
  outcome : StartOutcome
deriving DecidableEq, Repr

/-- `VoiceAssistant.start`: record the start instant, build the client
tools, construct the `Conversation` with `mkConvArgs`, stream (delivering
the outcome's callback invocations), then persist.  On a streaming
exception the single `except` block ends the session, saves to the fixed
error filename and calls `sys.exit(1)`; an exception raised by that save
propagates out of `start`.  `now0` is the recorded start instant and
`nowName`/`nowEnd` the save-time instants. -/
def startRun (st : VAState) (now0 nowName nowEnd : DateTime)
    (outcome : RunOutcome) (fs : FS) : StartResult :=
  let st1 := { st with start_time := some now0 }
  let args := VoiceAssistant.mkConvArgs st1
  let st2 := { st1 with conversation := some args }
  match outcome with
  | .ok events _conversationId =>
      let st3 := runEvents st2 events
      match VoiceAssistant.save_conversation st3 none nowName nowEnd fs with
      | .ok fs1 =>
          { finalState := st3, convArgs := args, endSessionCalled := false,
            outcome := .returned fs1 }
      | .error _e =>
          match VoiceAssistant.save_conversation st3
              (some "logs/conversation_error.json") nowName nowEnd fs with
          | .ok fs1 =>
              { finalState := st3, convArgs := args, endSessionCalled := true,
                outcome := .exited 1 fs1 }
          | .error e1 =>
              { finalState := st3, convArgs := args, endSessionCalled := true,
                outcome := .raised e1 fs }
  | .streamError events =>
      let st3 := runEvents st2 events
      match VoiceAssistant.save_conversation st3
          (some "logs/conversation_error.json") nowName nowEnd fs with
      | .ok fs1 =>
          { finalState := st3, convArgs := args, endSessionCalled := true,
            outcome := .exited 1 fs1 }
      | .error e1 =>
          { finalState := st3, convArgs := args, endSessionCalled := true,
            outcome := .raised e1 fs }

/-- The observable result of `main`: init effects, final filesystem, process
exit code (`none` = normal exit 0), and whether a session was constructed. -/
structure MainResult where
  initEffects : List InitEffect
  fs : FS
  exitCode : Option Nat
  sessionConstructed : Bool
deriving DecidableEq, Repr

/-- `main`: construct the assistant and start it; any exception escaping
`VoiceAssistant()` or `start()` is logged and the process exits with 1. -/
def mainRun (env : StrDict) (now0 nowName nowEnd : DateTime)
    (outcome : RunOutcome) (fs : FS) : MainResult :=
  match VoiceAssistant.init env with
  | (effs, .error _e) =>
      { initEffects := effs, fs := fs, exitCode := some 1,
        sessionConstructed := false }
  | (effs, .ok st) =>
      let r := startRun st now0 nowName nowEnd outcome fs
      match r.outcome with
      | .returned fs1 =>
          { initEffects := effs, fs := fs1, exitCode := none,
            sessionConstructed := true }
      | .exited c fs1 =>
          { initEffects := effs, fs := fs1, exitCode := some c,
            sessionConstructed := true }
      | .raised _ fs1 =>
          { initEffects := effs, fs := fs1, exitCode := some 1,
            sessionConstructed := true }

/-! ### Character and path lemmas -/

/-- Digit characters for values below ten are decimal digits. -/
theorem digitChar_isDigit {n : Nat} (h : n < 10) : (Nat.digitChar n).isDigit := by
  interval_cases n <;> decide

/-- Every character `natCharsAux` emits is a digit. -/
theorem natCharsAux_isDigit (fuel : Nat) :
    ∀ n, ∀ c ∈ natCharsAux fuel n, c.isDigit = true := by
  induction fuel with
  | zero =>
      intro n c hc
      simp [natCharsAux] at hc
  | succ fuel ih =>
      intro n c hc
      simp only [natCharsAux] at hc
      by_cases h : n < 10
      · rw [if_pos h, List.mem_singleton] at hc
        subst hc
        exact digitChar_isDigit h
      · rw [if_neg h, List.mem_append, List.mem_singleton] at hc
        rcases hc with hc | hc
        · exact ih (n / 10) c hc
        · subst hc
          exact digitChar_isDigit (Nat.mod_lt _ (by omega))

/-- Every character of a decimal rendering is a digit. -/
theorem natChars_isDigit (n : Nat) : ∀ c ∈ natChars n, c.isDigit = true :=
  natCharsAux_isDigit (n + 1) n

/-- A digit is not a path separator. -/
theorem isDigit_ne_slash {c : Char} (h : c.isDigit = true) : c ≠ '/' := by
  intro he
  subst he
  exact absurd h (by decide)

/-- Zero-padded digit lists contain no path separator. -/
theorem padChars_ne_slash (w : Nat) (l : List Char)
    (hl : ∀ c ∈ l, c.isDigit = true) : ∀ c ∈ padChars w l, c ≠ '/' := by
  intro c hc
  rw [padChars, List.mem_append] at hc
  rcases hc with hc | hc
  · rw [List.eq_of_mem_replicate hc]
    decide
  · exact isDigit_ne_slash (hl c hc)

/-- The `strftime` rendering of an instant contains no path separator. -/
theorem strftime_ne_slash (d : DateTime) :
    ∀ c ∈ (DateTime.strftimeYmdHMS d).data, c ≠ '/' := by
  intro c hc
  have hmem : c ∈ padChars 4 (natChars d.year) ++ padChars 2 (natChars d.month) ++
      padChars 2 (natChars d.day) ++ ['_'] ++ padChars 2 (natChars d.hour) ++
      padChars 2 (natChars d.minute) ++ padChars 2 (natChars d.second) := hc
  simp only [List.mem_append, List.mem_singleton] at hmem
  rcases hmem with ((((((h | h) | h) | h) | h) | h) | h)
  · exact padChars_ne_slash _ _ (natChars_isDigit _) c h
  · exact padChars_ne_slash _ _ (natChars_isDigit _) c h
  · exact padChars_ne_slash _ _ (natChars_isDigit _) c h
  · subst h; decide
  · exact padChars_ne_slash _ _ (natChars_isDigit _) c h
  · exact padChars_ne_slash _ _ (natChars_isDigit _) c h
  · exact padChars_ne_slash _ _ (natChars_isDigit _) c h

/-- `splitOnSlash` always yields at least one component. -/
theorem splitOnSlash_ne_nil (l : List Char) : splitOnSlash l ≠ [] := by
  cases l with
  | nil => simp [splitOnSlash]
  | cons c cs =>
      rw [splitOnSlash]
      cases splitOnSlash cs with
      | nil => simp
      | cons h t => by_cases hc : c = '/' <;> simp [hc]

/-- A separator-free character list is a single path component. -/
theorem splitOnSlash_no_slash (l : List Char) (h : ∀ c ∈ l, c ≠ '/') :
    splitOnSlash l = [l] := by
  induction l with
  | nil => rfl
  | cons c cs ih =>
      have hc : c ≠ '/' := h c (List.mem_cons_self c cs)
      have ihcs : splitOnSlash cs = [cs] :=
        ih fun x hx => h x (List.mem_cons_of_mem c hx)
      rw [splitOnSlash, ihcs]
      simp [hc]

/-- Splitting after a separator-free prefix peels off that prefix. -/
theorem splitOnSlash_append_slash (l1 l2 : List Char)
    (h1 : ∀ c ∈ l1, c ≠ '/') :
    splitOnSlash (l1 ++ '/' :: l2) = l1 :: splitOnSlash l2 := by
  induction l1 with
  | nil =>
      rw [List.nil_append, splitOnSlash]
      cases hs : splitOnSlash l2 with
      | nil => exact absurd hs (splitOnSlash_ne_nil l2)
      | cons h t => simp
  | cons c cs ih =>
      have hc : c ≠ '/' := h1 c (List.mem_cons_self c cs)
      have ihcs := ih fun x hx => h1 x (List.mem_cons_of_mem c hx)
      rw [List.cons_append, splitOnSlash, ihcs]
      simp [hc]

/-! ### Event-run lemmas -/

/-- One callback invocation only appends its entry (if any) to the history;
every other attribute is untouched. -/
theorem stepEvent_fst (st : VAState) (e : Event) :
    (stepEvent st e).1 =
      { st with history := st.history ++ (entryOf? e).toList } := by
  cases e <;>
    simp [stepEvent, VoiceAssistant.agent_response_callback,
      VoiceAssistant.user_transcript_callback,
      VoiceAssistant.correction_callback, VoiceAssistant.latency_callback,
      entryOf?]

/-- Delivering a sequence of invocations appends exactly their entries. -/
theorem runEvents_eq (es : List Event) :
    ∀ st : VAState,
      runEvents st es = { st with history := st.history ++ entriesOf es } := by
  induction es with
  | nil =>
      intro st
      simp [runEvents, entriesOf]
  | cons e es ih =>
      intro st
      have h1 : runEvents st (e :: es) = runEvents (stepEvent st e).1 es := rfl
      rw [h1, ih, stepEvent_fst]
      simp only [entriesOf, List.filterMap_cons]
      cases entryOf? e <;> simp [entriesOf]

/-- Chat-message sequences append exactly their promised entries. -/
theorem entriesOf_map_toEvent (msgs : List ChatMsg) :
    entriesOf (msgs.map ChatMsg.toEvent) = msgs.map ChatMsg.toEntry := by
  induction msgs with
  | nil => rfl
  | cons m ms ih =>
      cases m <;>
        simp [entriesOf, ChatMsg.toEvent, ChatMsg.toEntry, entryOf?,
          List.filterMap_cons] <;>
        simpa [entriesOf] using ih

/-! ### Persistence lemmas -/

/-- `mkdir` establishes the directory. -/
theorem mkdir_contains (fs : FS) (d : String) :
    (fs.mkdir d).dirs.contains d = true := by
  rw [FS.mkdir]
  by_cases h : fs.dirs.contains d = true <;> simp_all

/-- `parentDir` through an explicit decomposition of the path's characters
at its unique separator. -/
theorem parentDir_eq_of_data (p : String) (l1 l2 : List Char)
    (hd : p.data = l1 ++ '/' :: l2) (h1 : ∀ c ∈ l1, c ≠ '/')
    (h2 : ∀ c ∈ l2, c ≠ '/') :
    parentDir p = some (String.mk l1) := by
  unfold parentDir
  rw [hd, splitOnSlash_append_slash _ _ h1, splitOnSlash_no_slash _ h2]
  simp [joinSlash]

/-- The default transcript filename lives directly under `logs/`. -/
theorem parentDir_default_filename (t : String)
    (ht : ∀ c ∈ t.data, c ≠ '/') :
    parentDir ("logs/conversation_" ++ t ++ ".json") = some "logs" := by
  have hd : ("logs/conversation_" ++ t ++ ".json").data =
      "logs".data ++ '/' :: ("conversation_".data ++ (t.data ++ ".json".data)) := by
    rw [String.data_append, String.data_append]
    rw [show "logs/conversation_".data =
        "logs".data ++ '/' :: "conversation_".data from rfl]
    simp [List.append_assoc]
  refine parentDir_eq_of_data _ _ _ hd (by decide) ?_
  intro c hc
  rw [List.mem_append, List.mem_append] at hc
  rcases hc with hc | hc | hc
  · exact (by decide : ∀ x ∈ "conversation_".data, x ≠ '/') c hc
  · exact ht c hc
  · exact (by decide : ∀ x ∈ ".json".data, x ≠ '/') c hc

/-- `save_conversation` on the default path with a non-empty history:
creates `logs/`, writes the timestamped file, succeeds. -/
theorem save_conversation_default (st : VAState) (h : ¬st.history = [])
    (nowName nowEnd : DateTime) (fs : FS) :
    VoiceAssistant.save_conversation st none nowName nowEnd fs =
      .ok ((fs.mkdir "logs").writeFile
        ("logs/conversation_" ++ nowName.strftimeYmdHMS ++ ".json")
        { start_time := st.start_time.map DateTime.isoformat,
          end_time := nowEnd.isoformat,
          history := st.history }) := by
  rw [VoiceAssistant.save_conversation, if_neg h]
  simp only [FS.openWrite,
    parentDir_default_filename _ (strftime_ne_slash nowName),
    mkdir_contains, if_pos]

/-! ### Concrete fixtures used by witnesses and counterexamples -/

/-- A freshly initialized manager state (as `__init__` produces with
`AGENT_ID=abc123` and defaults). -/
def blankState : VAState :=
  { agent_id := some "abc123", api_key := none, volume := "1.0",
    timeout := 300, conversation := none, history := [],
    start_time := none }

/-- A concrete instant. -/
def dtW : DateTime := ⟨2025, 1, 1, 0, 0, 0, 0⟩

/-! ### Claims -/

/-- C2: for every terminal state, if the transcript entry sequence is empty
then the save operation writes no transcript file at all — on every path
(default or explicit filename) the filesystem is returned unchanged. -/
theorem claimC2_empty_history_writes_nothing (st : VAState)
    (h : st.history = []) (filename? : Option String)
    (nowName nowEnd : DateTime) (fs : FS) :
    VoiceAssistant.save_conversation st filename? nowName nowEnd fs = .ok fs := by
  rw [VoiceAssistant.save_conversation.eq_def, if_pos h]

/-- Witness for C2 at a concrete state, filename and filesystem. -/
theorem claimC2_empty_history_writes_nothing_witness :
    VoiceAssistant.save_conversation blankState
      (some "logs/conversation_error.json") dtW dtW ⟨[], []⟩ =
      .ok ⟨[], []⟩ :=
  claimC2_empty_history_writes_nothing blankState rfl
    (some "logs/conversation_error.json") dtW dtW ⟨[], []⟩

/-- C4: the correction callback leaves the whole manager state — in
particular every previously appended history entry — unchanged, and appends
no entry: the state (hence history) after the call is the state before. -/
theorem claimC4_correction_preserves_history (st : VAState)
    (original corrected : String) :
    (VoiceAssistant.correction_callback st original corrected).1.history =
        st.history ∧
    (VoiceAssistant.correction_callback st original corrected).1 = st :=
  ⟨rfl, rfl⟩

/-- C9: an interrupt with no session object performs no termination action
(`end_session` is not called) and returns the manager state unchanged. -/
theorem claimC9_interrupt_without_session_noop (st : VAState)
    (h : st.conversation = none) :
    VoiceAssistant.handle_interrupt st = (st, false) := by
  simp [VoiceAssistant.handle_interrupt, h]

/-- Witness for C9 at a concrete idle state. -/
theorem claimC9_interrupt_without_session_noop_witness :
    VoiceAssistant.handle_interrupt blankState = (blankState, false) :=
  claimC9_interrupt_without_session_noop blankState rfl

/-- C8 counterexample: with `message` bound to the empty string — and also
with the parameter entry missing — the `logMessage` tool writes nothing to
the operator-facing log, because `if message:` rejects falsy values; the
claim promises a log line for every string. -/
theorem claimC8_log_message_counterexample :
    VoiceAssistant.log_message [("message", "")] = none ∧
    VoiceAssistant.log_message [] = none :=
  ⟨rfl, rfl⟩

/-- C8 amended: the `logMessage` tool writes the message to the
operator-facing log exactly when the `message` parameter is present and
non-empty; an empty or missing message produces no log line.  The tool
returns no value to its caller (the model's return value is the emitted log
line itself). -/
theorem claimC8_log_message_amended :
    (∀ (ps : StrDict) (m : String), ps.get? "message" = some m → m ≠ "" →
        VoiceAssistant.log_message ps =
          some ("AI Tool Call - Log Message: " ++ m)) ∧
    (∀ ps : StrDict, ps.get? "message" = some "" →
        VoiceAssistant.log_message ps = none) ∧
    (∀ ps : StrDict, ps.get? "message" = none →
        VoiceAssistant.log_message ps = none) := by
  refine ⟨?_, ?_, ?_⟩
  · intro ps m hm hne
    simp [VoiceAssistant.log_message, hm, hne]
  · intro ps h
    simp [VoiceAssistant.log_message, h]
  · intro ps h
    simp [VoiceAssistant.log_message, h]

/-- Witness for C8 amended at a concrete parameter dict. -/
theorem claimC8_log_message_amended_witness :
    VoiceAssistant.log_message [("message", "hello")] =
      some ("AI Tool Call - Log Message: " ++ "hello") :=
  claimC8_log_message_amended.1 [("message", "hello")] "hello" rfl
    (by decide)

/-- Environment fixtures for the timeout claim: identical but for TIMEOUT. -/
def envTO300 : StrDict := [("AGENT_ID", "abc123"), ("TIMEOUT", "300")]

/-- Same environment with a different timeout value. -/
def envTO7 : StrDict := [("AGENT_ID", "abc123"), ("TIMEOUT", "7")]

/-- C7 counterexample: two initializations that differ only in their stored
timeout (300 vs 7) produce byte-identical `Conversation(...)` constructor
arguments — the timeout is not among the values passed to the collaborator's
session at construction, refuting the claim that it is passed. -/
theorem claimC7_timeout_counterexample :
    (VoiceAssistant.init envTO300).2.map VAState.timeout ≠
        (VoiceAssistant.init envTO7).2.map VAState.timeout ∧
    (VoiceAssistant.init envTO300).2.map VoiceAssistant.mkConvArgs =
        (VoiceAssistant.init envTO7).2.map VoiceAssistant.mkConvArgs := by
  have h1 : (VoiceAssistant.init envTO300).2.map VAState.timeout =
      Except.ok (ε := PyError) 300 := rfl
  have h2 : (VoiceAssistant.init envTO7).2.map VAState.timeout =
      Except.ok (ε := PyError) 7 := rfl
  constructor
  · rw [h1, h2]
    intro h
    exact absurd (Except.ok.inj h) (by decide)
  · rfl

/-- C7 amended: whenever initialization succeeds (so `AGENT_ID` is truthy
and `VOLUME`, default `"1.0"`, is a valid float literal), the idle-timeout
value is read from TIMEOUT with default 300 and stored — but it is never
passed to the collaborator's conversation-session: the constructor
arguments are invariant under the stored timeout.  The manager performs no
timeout enforcement of its own. -/
theorem claimC7_timeout_not_passed :
    (∀ env : StrDict, pyTruthy (env.get? "AGENT_ID") = true →
        pyFloatValid (env.getD "VOLUME" "1.0") = true →
        env.get? "TIMEOUT" = none →
        (VoiceAssistant.init env).2.map VAState.timeout = .ok 300) ∧
    (∀ (st : VAState) (t : Int),
        VoiceAssistant.mkConvArgs { st with timeout := t } =
          VoiceAssistant.mkConvArgs st) := by
  constructor
  · intro env hA hV hTO
    have h300 : pyInt? (env.getD "TIMEOUT" "300") = some 300 := by
      rw [StrDict.getD, hTO]
      rfl
    simp [VoiceAssistant.init, hA, hV, h300, Except.map]
  · intro st t
    rfl

/-- Witness for C7 amended at a concrete environment and state. -/
theorem claimC7_timeout_not_passed_witness :
    (VoiceAssistant.init [("AGENT_ID", "abc123")]).2.map VAState.timeout =
        .ok 300 ∧
    VoiceAssistant.mkConvArgs { blankState with timeout := 7 } =
        VoiceAssistant.mkConvArgs blankState :=
  ⟨claimC7_timeout_not_passed.1 [("AGENT_ID", "abc123")] (by decide)
     (by decide) rfl,
   claimC7_timeout_not_passed.2 blankState 7⟩

/-- C5: with `AGENT_ID` absent from the environment, initialization raises
`ValueError` (the spec's `ConfigError`) with nothing constructed beyond
loading the `.env` file — in particular no external client — and the full
run constructs no session, leaves the filesystem untouched, and exits 1. -/
theorem claimC5_missing_agent_id_fails_fast (env : StrDict)
    (h : env.get? "AGENT_ID" = none)
    (now0 nowName nowEnd : DateTime) (outcome : RunOutcome) (fs : FS) :
    VoiceAssistant.init env =
      ([.loadDotenv],
       .error (.valueError "AGENT_ID environment variable is required")) ∧
    mainRun env now0 nowName nowEnd outcome fs =
      { initEffects := [.loadDotenv], fs := fs, exitCode := some 1,
        sessionConstructed := false } := by
  have h1 : VoiceAssistant.init env =
      ([.loadDotenv],
       .error (.valueError "AGENT_ID environment variable is required")) := by
    simp [VoiceAssistant.init, h, pyTruthy]
  exact ⟨h1, by simp [mainRun, h1]⟩

/-- Witness for C5 at a concrete environment lacking `AGENT_ID`. -/
theorem claimC5_missing_agent_id_fails_fast_witness :
    VoiceAssistant.init [("TIMEOUT", "300")] =
      ([.loadDotenv],
       .error (.valueError "AGENT_ID environment variable is required")) ∧
    mainRun [("TIMEOUT", "300")] dtW dtW dtW (.ok [] "cid") ⟨[], []⟩ =
      { initEffects := [.loadDotenv], fs := ⟨[], []⟩, exitCode := some 1,
        sessionConstructed := false } :=
  claimC5_missing_agent_id_fails_fast [("TIMEOUT", "300")] rfl
    dtW dtW dtW (.ok [] "cid") ⟨[], []⟩

/-- `save_conversation` with an explicit filename: no `mkdir`, straight to
the write. -/
theorem save_conversation_explicit (st : VAState) (h : ¬st.history = [])
    (fname : String) (nowName nowEnd : DateTime) (fs : FS) :
    VoiceAssistant.save_conversation st (some fname) nowName nowEnd fs =
      fs.openWrite fname
        { start_time := st.start_time.map DateTime.isoformat,
          end_time := nowEnd.isoformat, history := st.history } := by
  rw [VoiceAssistant.save_conversation.eq_def, if_neg h]

/-- The fixed error filename resolves to the `logs` directory. -/
theorem parentDir_error_filename :
    parentDir "logs/conversation_error.json" = some "logs" := by decide

/-- Error-path save succeeds when `logs/` exists, without creating it. -/
theorem save_conversation_error_path (st : VAState) (h : ¬st.history = [])
    (nowName nowEnd : DateTime) (fs : FS)
    (hdir : fs.dirs.contains "logs" = true) :
    VoiceAssistant.save_conversation st (some "logs/conversation_error.json")
        nowName nowEnd fs =
      .ok (fs.writeFile "logs/conversation_error.json"
        { start_time := st.start_time.map DateTime.isoformat,
          end_time := nowEnd.isoformat, history := st.history }) := by
  rw [save_conversation_explicit st h _ nowName nowEnd fs]
  simp only [FS.openWrite, parentDir_error_filename]
  have hmem : "logs" ∈ fs.dirs := by simpa using hdir
  simp [hdir, hmem]

/-- Error-path save fails with `FileNotFoundError` when `logs/` is absent. -/
theorem save_conversation_error_path_nodir (st : VAState)
    (h : ¬st.history = []) (nowName nowEnd : DateTime) (fs : FS)
    (hdir : fs.dirs.contains "logs" = false) :
    VoiceAssistant.save_conversation st (some "logs/conversation_error.json")
        nowName nowEnd fs =
      .error (.fileNotFoundError "logs/conversation_error.json") := by
  rw [save_conversation_explicit st h _ nowName nowEnd fs]
  simp only [FS.openWrite, parentDir_error_filename]
  have hnm : "logs" ∉ fs.dirs := by simpa using hdir
  simp [hdir, hnm]

/-- Full description of `start` on a normal session end with a non-empty
transcript: session constructed, events appended, transcript written to the
timestamped default path under a freshly ensured `logs/`, normal return. -/
theorem startRun_ok_eq (st : VAState) (now0 nowName nowEnd : DateTime)
    (es : List Event) (cid : String) (fs : FS)
    (hne : ¬(st.history ++ entriesOf es = [])) :
    startRun st now0 nowName nowEnd (.ok es cid) fs =
      { finalState :=
          { st with
            start_time := some now0,
            conversation := some (VoiceAssistant.mkConvArgs
              { st with start_time := some now0 }),
            history := st.history ++ entriesOf es },
        convArgs := VoiceAssistant.mkConvArgs { st with start_time := some now0 },
        endSessionCalled := false,
        outcome := .returned ((fs.mkdir "logs").writeFile
          ("logs/conversation_" ++ nowName.strftimeYmdHMS ++ ".json")
          { start_time := some now0.isoformat,
            end_time := nowEnd.isoformat,
            history := st.history ++ entriesOf es }) } := by
  simp only [startRun]
  rw [runEvents_eq]
  rw [save_conversation_default]
  · simp
  · simpa using hne

/-- Full description of `start` when streaming raises after events were
delivered and `logs/` exists: session ended, transcript written to the
fixed error filename, `sys.exit(1)`. -/
theorem startRun_streamError_eq (st : VAState)
    (now0 nowName nowEnd : DateTime) (es : List Event) (fs : FS)
    (hne : ¬(st.history ++ entriesOf es = []))
    (hdir : fs.dirs.contains "logs" = true) :
    startRun st now0 nowName nowEnd (.streamError es) fs =
      { finalState :=
          { st with
            start_time := some now0,
            conversation := some (VoiceAssistant.mkConvArgs
              { st with start_time := some now0 }),
            history := st.history ++ entriesOf es },
        convArgs := VoiceAssistant.mkConvArgs { st with start_time := some now0 },
        endSessionCalled := true,
        outcome := .exited 1 (fs.writeFile "logs/conversation_error.json"
          { start_time := some now0.isoformat,
            end_time := nowEnd.isoformat,
            history := st.history ++ entriesOf es }) } := by
  simp only [startRun]
  rw [runEvents_eq]
  rw [save_conversation_error_path]
  · simp
  · simpa using hne
  · exact hdir

/-- Full description of `start` when streaming raises after events were
delivered and `logs/` is absent: the session is ended, but the error-path
write raises `FileNotFoundError`, nothing is persisted, and the exception
propagates out of `start`. -/
theorem startRun_streamError_nodir_eq (st : VAState)
    (now0 nowName nowEnd : DateTime) (es : List Event) (fs : FS)
    (hne : ¬(st.history ++ entriesOf es = []))
    (hdir : fs.dirs.contains "logs" = false) :
    startRun st now0 nowName nowEnd (.streamError es) fs =
      { finalState :=
          { st with
            start_time := some now0,
            conversation := some (VoiceAssistant.mkConvArgs
              { st with start_time := some now0 }),
            history := st.history ++ entriesOf es },
        convArgs := VoiceAssistant.mkConvArgs { st with start_time := some now0 },
        endSessionCalled := true,
        outcome := .raised (.fileNotFoundError "logs/conversation_error.json")
          fs } := by
  simp only [startRun]
  rw [runEvents_eq]
  rw [save_conversation_error_path_nodir]
  · simpa using hne
  · exact hdir

/-- C1: for every sequence of agent-response and user-transcript callback
invocations delivered to a fresh history, the history — and the `history`
array persisted by the save operation — has exactly one entry per
invocation, in invocation order: agent-response with text `t` yields
`{role := "agent", text := t}` and user-transcript yields
`{role := "user", text := t}`. -/
theorem claimC1_history_role_text_fidelity (st0 : VAState)
    (h0 : st0.history = []) (msgs : List ChatMsg) (hne : msgs ≠ [])
    (nowName nowEnd : DateTime) (fs : FS) :
    (runEvents st0 (msgs.map ChatMsg.toEvent)).history =
        msgs.map ChatMsg.toEntry ∧
    VoiceAssistant.save_conversation (runEvents st0 (msgs.map ChatMsg.toEvent))
        none nowName nowEnd fs =
      .ok ((fs.mkdir "logs").writeFile
        ("logs/conversation_" ++ nowName.strftimeYmdHMS ++ ".json")
        { start_time := st0.start_time.map DateTime.isoformat,
          end_time := nowEnd.isoformat,
          history := msgs.map ChatMsg.toEntry }) := by
  have hh : (runEvents st0 (msgs.map ChatMsg.toEvent)).history =
      msgs.map ChatMsg.toEntry := by
    rw [runEvents_eq]
    simp [h0, entriesOf_map_toEvent]
  have hst : (runEvents st0 (msgs.map ChatMsg.toEvent)).start_time =
      st0.start_time := by
    rw [runEvents_eq]
  refine ⟨hh, ?_⟩
  rw [save_conversation_default _ (by rw [hh]; simp [hne]) nowName nowEnd fs,
    hh, hst]

/-- Witness for C1 on the spec's scenario: `onUserTranscript("hello")` then
`onAgentResponse("hi there")`. -/
theorem claimC1_history_role_text_fidelity_witness :
    (runEvents blankState ([ChatMsg.user "hello" dtW,
        ChatMsg.agent "hi there" dtW].map ChatMsg.toEvent)).history =
      [ChatMsg.user "hello" dtW, ChatMsg.agent "hi there" dtW].map
        ChatMsg.toEntry ∧
    VoiceAssistant.save_conversation
        (runEvents blankState ([ChatMsg.user "hello" dtW,
          ChatMsg.agent "hi there" dtW].map ChatMsg.toEvent))
        none dtW dtW ⟨[], []⟩ =
      .ok (((⟨[], []⟩ : FS).mkdir "logs").writeFile
        ("logs/conversation_" ++ dtW.strftimeYmdHMS ++ ".json")
        { start_time := blankState.start_time.map DateTime.isoformat,
          end_time := dtW.isoformat,
          history := [ChatMsg.user "hello" dtW,
            ChatMsg.agent "hi there" dtW].map ChatMsg.toEntry }) :=
  claimC1_history_role_text_fidelity blankState rfl
    [ChatMsg.user "hello" dtW, ChatMsg.agent "hi there" dtW] (by decide)
    dtW dtW ⟨[], []⟩

/-- C3 counterexample: a session recorded to start at 2025-01-01 00:00:00
and saved at 2025-02-03 04:05:06 writes
`logs/conversation_20250203_040506.json` — the filename carries a
`conversation_` prefix and the save-time instant, not the recorded start
instant; nothing exists at the claimed path `logs/20250101_000000.json`. -/
theorem claimC3_default_path_counterexample :
    (startRun blankState ⟨2025, 1, 1, 0, 0, 0, 0⟩ ⟨2025, 2, 3, 4, 5, 6, 0⟩
        ⟨2025, 2, 3, 4, 5, 6, 0⟩
        (.ok [.userTranscript "hello" ⟨2025, 1, 1, 0, 0, 1, 0⟩] "cid")
        ⟨[], []⟩).outcome =
      .returned ⟨["logs"], [("logs/conversation_20250203_040506.json",
        ⟨some "2025-01-01T00:00:00", "2025-02-03T04:05:06",
         [⟨"user", "hello", "2025-01-01T00:00:01"⟩]⟩)]⟩ ∧
    (⟨["logs"], [("logs/conversation_20250203_040506.json",
        ⟨some "2025-01-01T00:00:00", "2025-02-03T04:05:06",
         [⟨"user", "hello", "2025-01-01T00:00:01"⟩]⟩)]⟩ : FS).readFile?
      "logs/20250101_000000.json" = none := by
  constructor
  · decide
  · decide

/-- C3 amended: on a normal session end with a non-empty transcript the
file is written to `logs/conversation_<YYYYMMDD_HHMMSS>.json`, where the
timestamp is the wall-clock instant at the moment of saving truncated to
seconds (not the recorded start instant), and the `logs` directory is
created if absent. -/
theorem claimC3_default_path (st0 : VAState) (h0 : st0.history = [])
    (msgs : List ChatMsg) (hne : msgs ≠ []) (cid : String)
    (now0 nowName nowEnd : DateTime) (fs : FS) :
    (startRun st0 now0 nowName nowEnd
        (.ok (msgs.map ChatMsg.toEvent) cid) fs).outcome =
      .returned ((fs.mkdir "logs").writeFile
        ("logs/conversation_" ++ nowName.strftimeYmdHMS ++ ".json")
        { start_time := some now0.isoformat,
          end_time := nowEnd.isoformat,
          history := msgs.map ChatMsg.toEntry }) ∧
    (fs.mkdir "logs").dirs.contains "logs" = true := by
  refine ⟨?_, mkdir_contains fs "logs"⟩
  rw [startRun_ok_eq st0 now0 nowName nowEnd _ cid fs
    (by simp [h0, entriesOf_map_toEvent, hne])]
  simp [h0, entriesOf_map_toEvent]

/-- Witness for C3 amended at a concrete session. -/
theorem claimC3_default_path_witness :
    (startRun blankState dtW ⟨2025, 2, 3, 4, 5, 6, 0⟩ ⟨2025, 2, 3, 4, 5, 6, 0⟩
        (.ok ([ChatMsg.user "hello" dtW].map ChatMsg.toEvent) "cid")
        ⟨[], []⟩).outcome =
      .returned (((⟨[], []⟩ : FS).mkdir "logs").writeFile
        ("logs/conversation_" ++
          (⟨2025, 2, 3, 4, 5, 6, 0⟩ : DateTime).strftimeYmdHMS ++ ".json")
        { start_time := some dtW.isoformat,
          end_time := (⟨2025, 2, 3, 4, 5, 6, 0⟩ : DateTime).isoformat,
          history := [ChatMsg.user "hello" dtW].map ChatMsg.toEntry }) ∧
    ((⟨[], []⟩ : FS).mkdir "logs").dirs.contains "logs" = true :=
  claimC3_default_path blankState rfl [ChatMsg.user "hello" dtW] (by decide)
    "cid" dtW ⟨2025, 2, 3, 4, 5, 6, 0⟩ ⟨2025, 2, 3, 4, 5, 6, 0⟩ ⟨[], []⟩

/-- C6 counterexample: streaming raises after two entries were recorded,
but the `logs` directory does not exist — the manager ends the session, yet
the fixed-filename write raises `FileNotFoundError` and no transcript is
persisted, refuting the claim's unconditional "writes the transcript ... to
the fixed error-path filename"; the process still terminates with status 1
through the top-level handler. -/
theorem claimC6_stream_error_counterexample :
    (startRun blankState dtW dtW dtW
        (.streamError [.userTranscript "hello" dtW,
          .agentResponse "hi there" dtW]) ⟨[], []⟩).outcome =
      .raised (.fileNotFoundError "logs/conversation_error.json") ⟨[], []⟩ ∧
    (⟨[], []⟩ : FS).readFile? "logs/conversation_error.json" = none ∧
    (mainRun [("AGENT_ID", "abc123")] dtW dtW dtW
        (.streamError [.userTranscript "hello" dtW,
          .agentResponse "hi there" dtW]) ⟨[], []⟩).exitCode = some 1 :=
  ⟨by decide, by decide, by decide⟩

/-- C6 amended: if an exception is raised during streaming after transcript
entries have been recorded, the manager attempts to end the session and
makes a best-effort write of exactly those entries to the fixed error
filename `logs/conversation_error.json`: the write succeeds when the `logs`
directory exists, and raises `FileNotFoundError` — persisting nothing —
when it is absent; in both cases the process exits with status 1. -/
theorem claimC6_stream_error_best_effort (st0 : VAState)
    (h0 : st0.history = []) (es : List Event) (hne : entriesOf es ≠ [])
    (now0 nowName nowEnd : DateTime) :
    (∀ fs : FS, fs.dirs.contains "logs" = true →
        (startRun st0 now0 nowName nowEnd
            (.streamError es) fs).endSessionCalled = true ∧
        (startRun st0 now0 nowName nowEnd (.streamError es) fs).outcome =
          .exited 1 (fs.writeFile "logs/conversation_error.json"
            { start_time := some now0.isoformat,
              end_time := nowEnd.isoformat,
              history := entriesOf es })) ∧
    (∀ fs : FS, fs.dirs.contains "logs" = false →
        (startRun st0 now0 nowName nowEnd
            (.streamError es) fs).endSessionCalled = true ∧
        (startRun st0 now0 nowName nowEnd (.streamError es) fs).outcome =
          .raised (.fileNotFoundError "logs/conversation_error.json") fs) ∧
    (∀ (env : StrDict) (effs : List InitEffect) (fs : FS),
        VoiceAssistant.init env = (effs, .ok st0) →
        (mainRun env now0 nowName nowEnd
            (.streamError es) fs).exitCode = some 1) := by
  have hne2 : ¬(st0.history ++ entriesOf es = []) := by simp [h0, hne]
  refine ⟨?_, ?_, ?_⟩
  · intro fs hdir
    rw [startRun_streamError_eq st0 now0 nowName nowEnd es fs hne2 hdir]
    exact ⟨rfl, by simp [h0]⟩
  · intro fs hdir
    rw [startRun_streamError_nodir_eq st0 now0 nowName nowEnd es fs hne2 hdir]
    exact ⟨rfl, rfl⟩
  · intro env effs fs hinit
    simp only [mainRun, hinit]
    by_cases hdir : fs.dirs.contains "logs" = true
    · rw [startRun_streamError_eq st0 now0 nowName nowEnd es fs hne2 hdir]
    · have hdir2 : fs.dirs.contains "logs" = false := by
        simpa using hdir
      rw [startRun_streamError_nodir_eq st0 now0 nowName nowEnd es fs
        hne2 hdir2]

/-- Witness for C6 amended: both filesystem cases and the process exit
code, at a concrete session with two recorded entries. -/
theorem claimC6_stream_error_best_effort_witness :
    ((startRun blankState dtW dtW dtW
        (.streamError [.userTranscript "hello" dtW,
          .agentResponse "hi there" dtW]) ⟨["logs"], []⟩).endSessionCalled =
        true ∧
      (startRun blankState dtW dtW dtW
        (.streamError [.userTranscript "hello" dtW,
          .agentResponse "hi there" dtW]) ⟨["logs"], []⟩).outcome =
        .exited 1 ((⟨["logs"], []⟩ : FS).writeFile
          "logs/conversation_error.json"
          { start_time := some dtW.isoformat,
            end_time := dtW.isoformat,
            history := entriesOf [.userTranscript "hello" dtW,
              .agentResponse "hi there" dtW] })) ∧
    ((startRun blankState dtW dtW dtW
        (.streamError [.userTranscript "hello" dtW,
          .agentResponse "hi there" dtW]) ⟨[], []⟩).endSessionCalled =
        true ∧
      (startRun blankState dtW dtW dtW
        (.streamError [.userTranscript "hello" dtW,
          .agentResponse "hi there" dtW]) ⟨[], []⟩).outcome =
        .raised (.fileNotFoundError "logs/conversation_error.json")
          ⟨[], []⟩) ∧
    (mainRun [("AGENT_ID", "abc123")] dtW dtW dtW
        (.streamError [.userTranscript "hello" dtW,
          .agentResponse "hi there" dtW]) ⟨["logs"], []⟩).exitCode =
      some 1 :=
  ⟨(claimC6_stream_error_best_effort blankState rfl
      [.userTranscript "hello" dtW, .agentResponse "hi there" dtW]
      (by decide) dtW dtW dtW).1 ⟨["logs"], []⟩ rfl,
   (claimC6_stream_error_best_effort blankState rfl
      [.userTranscript "hello" dtW, .agentResponse "hi there" dtW]
      (by decide) dtW dtW dtW).2.1 ⟨[], []⟩ rfl,
   (claimC6_stream_error_best_effort blankState rfl
      [.userTranscript "hello" dtW, .agentResponse "hi there" dtW]
      (by decide) dtW dtW dtW).2.2 [("AGENT_ID", "abc123")]
     [.loadDotenv, .constructClient none] ⟨["logs"], []⟩ rfl⟩

/-- A state holding one recorded entry, for the error-path witnesses. -/
def histSt : VAState :=
  { blankState with history := [⟨"user", "hello", "2025-01-01T00:00:01"⟩] }

/-- C10: the save operation with an explicit filename performs no directory
creation (any successful explicit-filename save leaves the directory set
unchanged), so with a non-empty history and no `logs` directory the
error-path write raises `FileNotFoundError` instead of persisting. -/
theorem claimC10_error_path_no_mkdir (st : VAState) (h : ¬st.history = [])
    (nowName nowEnd : DateTime) (fs : FS)
    (hdir : fs.dirs.contains "logs" = false) :
    VoiceAssistant.save_conversation st (some "logs/conversation_error.json")
        nowName nowEnd fs =
      .error (.fileNotFoundError "logs/conversation_error.json") ∧
    (∀ (fname : String) (fs2 fs2' : FS),
        VoiceAssistant.save_conversation st (some fname) nowName nowEnd fs2 =
          .ok fs2' → fs2'.dirs = fs2.dirs) := by
  constructor
  · exact save_conversation_error_path_nodir st h nowName nowEnd fs hdir
  · intro fname fs2 fs2' hok
    rw [save_conversation_explicit st h fname nowName nowEnd fs2] at hok
    simp only [FS.openWrite] at hok
    cases hp : parentDir fname with
    | none =>
        rw [hp] at hok
        simp only [Except.ok.injEq] at hok
        subst hok
        rfl
    | some d =>
        rw [hp] at hok
        by_cases hc : fs2.dirs.contains d = true
        · simp only [hc, if_true, Except.ok.injEq] at hok
          subst hok
          rfl
        · have hc2 : d ∉ fs2.dirs := by simpa using hc
          simp [hc2] at hok

/-- Witness for C10: with one recorded entry and an empty filesystem the
error-path write fails; a successful explicit write preserves directories. -/
theorem claimC10_error_path_no_mkdir_witness :
    VoiceAssistant.save_conversation histSt
        (some "logs/conversation_error.json") dtW dtW ⟨[], []⟩ =
      .error (.fileNotFoundError "logs/conversation_error.json") ∧
    (FS.mk ["logs"] [("logs/conversation_error.json",
        ⟨none, "2025-01-01T00:00:00",
         [⟨"user", "hello", "2025-01-01T00:00:01"⟩]⟩)]).dirs =
      (FS.mk ["logs"] []).dirs :=
  ⟨(claimC10_error_path_no_mkdir histSt (by decide) dtW dtW ⟨[], []⟩ rfl).1,
   (claimC10_error_path_no_mkdir histSt (by decide) dtW dtW ⟨[], []⟩ rfl).2
     "logs/conversation_error.json" (FS.mk ["logs"] []) _ rfl⟩
